import Mathlib

/-!
Shallow embedding of `src/server.js` (YouTube downloader backend).

The server delegates all real work to two external command-line tools
(yt-dlp and ffmpeg) spawned as child processes, and to the runtime's URL
parser and filesystem.  The embedding therefore models one HTTP request as a
pure function of (a) the request's query parameters and (b) an environment
describing the outcomes of those external interactions: the URL parser's
result, each tool's exit code, whether each tool created its output file,
and whether streaming the result back succeeded.  Filesystem state is
tracked as two booleans (is the downloaded temp file / the trimmed temp
file still on disk at end of request), and every child-process spawn is
recorded as an event carrying the exact argv list built by the code.
-/

/-- Maximum video duration in seconds, `MAX_DURATION` (server.js line 26). -/
def MAX_DURATION : Nat := 3600

/-- JS truthiness of an optional query-string value: an absent parameter
(`undefined`) and the empty string are falsy, any other string is truthy. -/
def truthy : Option String → Bool
  | none => false
  | some s => s != ""

/-- JS `x || dflt` for an optional string `x`: the default is used when `x`
is absent (`undefined`/`null`) or empty (the falsy strings). -/
def jsOr (v : Option String) (dflt : String) : String :=
  match v with
  | none => dflt
  | some s => if s == "" then dflt else s

/-- The character class kept by `sanitizeFilename`'s first replace
(server.js line 193): ASCII letters, digits, hyphen, underscore, space.
`Char.isAlphanum` is exactly the ASCII ranges a-z, A-Z, 0-9. -/
def allowedChar (c : Char) : Bool :=
  c.isAlphanum || c == '-' || c == '_' || c == ' '

/-- `.replace(/[^a-zA-Z0-9\-_ ]/g, '_')` (line 193): every character outside
the class becomes an underscore. -/
def replaceDisallowed (l : List Char) : List Char :=
  l.map fun c => if allowedChar c then c else '_'

/-- `.replace(/\s+/g, ' ')` (line 194): collapse each whitespace run to a
single space.  It runs after `replaceDisallowed`, so the only whitespace
character left in the input is the space itself; the boolean argument says
whether the previous character was part of a space run. -/
def collapseSpaces : List Char → Bool → List Char
  | [], _ => []
  | c :: rest, prevSpace =>
    if c == ' ' then
      if prevSpace then collapseSpaces rest true
      else ' ' :: collapseSpaces rest true
    else c :: collapseSpaces rest false

/-- `.trim()` (line 195): drop whitespace from both ends (after the
previous steps only spaces can occur). -/
def trimSpaces (l : List Char) : List Char :=
  ((l.dropWhile (fun c => c == ' ')).reverse.dropWhile (fun c => c == ' ')).reverse

/-- `sanitizeFilename` (server.js lines 191-197): replace disallowed
characters, collapse whitespace, trim, then `.slice(0, 100)`. -/
def sanitizeFilename (name : String) : String :=
  String.mk ((trimSpaces (collapseSpaces (replaceDisallowed name.data) false)).take 100)

/-- `isValidYouTubeUrl` (server.js lines 181-188).  `parseURL` stands for
the runtime's WHATWG `new URL(url)` constructor, returning the parsed
hostname or `none` when construction throws; the regex test
`/youtube\.com|youtu\.be/` is an unanchored substring match on that
hostname. -/
def isValidYouTubeUrl (parseURL : String → Option String) (url : String) : Bool :=
  match parseURL url with
  | none => false
  | some hostname =>
    decide ("youtube.com".data <:+: hostname.data)
      || decide ("youtu.be".data <:+: hostname.data)

/-- The six-field record `getVideoInfo` resolves with (server.js lines
222-229), projected from the JSON that yt-dlp printed; each field is
optional because the corresponding JSON key may be absent or null. -/
structure VideoInfo where
  id : Option String
  title : Option String
  duration : Option Nat
  thumbnail : Option String
  uploader : Option String
  upload_date : Option String
deriving DecidableEq, Repr

/-- `getVideoInfo` (server.js lines 200-240).  `infoExit` is the yt-dlp
exit code observed by the `close` handler; `infoJson` is the result of
`JSON.parse` on the captured stdout, projected to the returned fields
(`none` when parsing throws).  The promise rejects on a non-zero exit or a
parse failure, otherwise resolves with the record.  The stderr text
interpolated into the message is elided. -/
def getVideoInfo (infoExit : Int) (infoJson : Option VideoInfo) : Except String VideoInfo :=
  if infoExit ≠ 0 then Except.error "Failed to fetch video info"
  else
    match infoJson with
    | some info => Except.ok info
    | none => Except.error "Failed to parse video info"

/-- `downloadVideo`'s `close` handler (server.js lines 270-282): reject on a
non-zero exit code; on exit 0 verify the output file exists (`fs.access`)
and resolve only then. `outputFileExists` is that filesystem fact. -/
def downloadVideo (exitCode : Int) (outputFileExists : Bool) : Except String Unit :=
  if exitCode ≠ 0 then Except.error "Download failed"
  else if outputFileExists then Except.ok () else Except.error "Downloaded file not found"

/-- `trimVideo`'s `close` handler (server.js lines 315-326): same double
confirmation as the download step. -/
def trimVideo (exitCode : Int) (outputFileExists : Bool) : Except String Unit :=
  if exitCode ≠ 0 then Except.error "Trim failed"
  else if outputFileExists then Except.ok () else Except.error "Trimmed file not found"

/-- argv of the metadata fetch (server.js line 202). -/
def infoArgs (url : String) : List String :=
  ["--dump-json", "--no-warnings", url]

/-- argv of the download tool (server.js lines 245-255), including the MP3
audio-extraction flags added for `mode=audio&container=mp3`. -/
def downloadArgs (url format ext outputPath mode bitrate container : String) :
    List String :=
  ["-f", format, "--merge-output-format", ext]
    ++ (if mode == "audio" && container == "mp3" then
          ["--extract-audio", "--audio-format", "mp3", "--audio-quality", bitrate ++ "K"]
        else [])
    ++ ["-o", outputPath, url]

/-- argv of the trim tool (server.js lines 293-305): optional `-ss start`,
`-i input`, optional `-to end`, then the stream-copy flags `-c copy` and
the output path. -/
def trimArgs (inputPath outputPath : String) (startT endT : Option String) :
    List String :=
  (if truthy startT then ["-ss", startT.getD ""] else [])
    ++ ["-i", inputPath]
    ++ (if truthy endT then ["-to", endT.getD ""] else [])
    ++ ["-c", "copy", outputPath]

/-- Downloaded temp file path (server.js line 123).  The `Date.now()` and
`Math.random()` components are abbreviated to fixed placeholders: no frozen
claim depends on them beyond the downloaded and trimmed names differing. -/
def tempFile (ext : String) : String := "/tmp/ytdl_TS_RAND." ++ ext

/-- Trimmed temp file path (server.js line 131). -/
def trimmedFile (ext : String) : String := "/tmp/ytdl_trim_TS_RAND." ++ ext

/-- JS `String.prototype.replace` with a plain-string pattern: replace the
first occurrence only (used on lines 116 and 137). -/
def listReplaceFirst (l pat repl : List Char) : List Char :=
  if pat.isPrefixOf l then repl ++ l.drop pat.length
  else
    match l with
    | [] => []
    | c :: rest => c :: listReplaceFirst rest pat repl

/-- String wrapper for `listReplaceFirst`. -/
def jsReplaceFirst (s pat repl : String) : String :=
  String.mk (listReplaceFirst s.data pat.data repl.data)

/-- Decimal value of a digit run. -/
def digitsToNat (l : List Char) : Nat :=
  l.foldl (fun a c => 10 * a + (c.toNat - '0'.toNat)) 0

/-- JS `parseInt` composed with template interpolation (lines 116-117):
take the leading decimal digits; when there are none the result is `NaN`,
which interpolates as the string NaN. -/
def jsParseIntToString (s : String) : String :=
  let digits := s.data.takeWhile Char.isDigit
  if digits.isEmpty then "NaN" else toString (digitsToNat digits)

/-- File extension chosen on server.js lines 111-119: in audio mode, mp3
when that container was requested and webm otherwise; in video mode the
requested container. -/
def chosenExt (mode container : String) : String :=
  if mode == "audio" then (if container == "mp3" then "mp3" else "webm")
  else container

/-- Format selector built on lines 112 and 116-117. -/
def formatSelector (mode quality : String) : String :=
  if mode == "audio" then "bestaudio"
  else
    "bestvideo[height<=" ++ jsParseIntToString (jsReplaceFirst quality "p" "")
      ++ "]+bestaudio/best[height<=" ++ jsParseIntToString (jsReplaceFirst quality "p" "")
      ++ "]"

/-- Download filename built on lines 114 and 119 (before any trim marker). -/
def baseFilename (title bitrate quality mode ext : String) : String :=
  if mode == "audio" then title ++ "_" ++ bitrate ++ "kbps." ++ ext
  else title ++ "_" ++ quality ++ "." ++ ext

/-- One child-process spawn performed during a request, with the argv list
the code built for it. -/
inductive Ev where
  | spawnInfo (args : List String)
  | spawnDownload (args : List String)
  | spawnTrim (args : List String)
deriving DecidableEq, Repr

/-- The HTTP response of a request, reduced to the parts the claims are
about. -/
structure Response where
  status : Nat
  contentType : Option String := none
  contentDisposition : Option String := none
  errorMsg : Option String := none
deriving DecidableEq, Repr

/-- End-of-request observation: spawn events in order, the response, which
temp files are still on disk once the request is over, and whether the
stream emitted its error event after headers were sent. -/
structure Outcome where
  events : List Ev
  response : Response
  downloadedOnDisk : Bool
  trimmedOnDisk : Bool
  streamErrored : Bool := false
deriving DecidableEq, Repr

/-- Query parameters of GET /download (server.js lines 75-83); `none`
models an absent parameter, for which the destructuring defaults apply. -/
structure Query where
  url : Option String := none
  mode : Option String := none
  quality : Option String := none
  container : Option String := none
  bitrate : Option String := none
  startT : Option String := none
  endT : Option String := none

/-- Environment of one request: outcome of the URL parse and of each
external interaction.  `dlFileCreated` / `trimFileCreated` state whether
the tool left its output file on disk (which is also what the `fs.access`
double-check observes). -/
structure Env where
  parseURL : String → Option String
  infoExit : Int
  infoJson : Option VideoInfo
  dlExit : Int
  dlFileCreated : Bool
  trimExit : Int
  trimFileCreated : Bool
  streamOk : Bool

/-- A 400 validation response (lines 86-93): sent before anything was
spawned or created. -/
def err400 (msg : String) : Outcome :=
  { events := [], response := { status := 400, errorMsg := some msg },
    downloadedOnDisk := false, trimmedOnDisk := false }

/-- The catch block (lines 171-177): headers have not been sent on any path
that reaches it, so a 500 JSON error is returned; it deletes nothing, so
the disk flags pass through unchanged. -/
def err500 (evs : List Ev) (msg : String) (dl tr : Bool) : Outcome :=
  { events := evs, response := { status := 500, errorMsg := some msg },
    downloadedOnDisk := dl, trimmedOnDisk := tr }

/-- Streaming phase (lines 140-169): headers are set and the file is piped;
both the `end` and the `error` handler unlink the final file, and on a
stream error headers are already committed so no error response can be
sent.  `finalIsTrimmed` says which of the two temp files is being
streamed (and hence unlinked). -/
def streamOutcome (evs : List Ev) (contentType filename : String)
    (streamOk : Bool) (dlOnDisk trOnDisk : Bool) (finalIsTrimmed : Bool) : Outcome :=
  { events := evs,
    response := { status := 200, contentType := some contentType,
                  contentDisposition := some ("attachment; filename=\"" ++ filename ++ "\"") },
    downloadedOnDisk := if finalIsTrimmed then dlOnDisk else false,
    trimmedOnDisk := if finalIsTrimmed then false else trOnDisk,
    streamErrored := !streamOk }

/-- The GET /download handler (server.js lines 74-178) as a function of the
query and the environment. -/
def downloadHandler (env : Env) (q : Query) : Outcome :=
  let mode := q.mode.getD "video"
  let quality := q.quality.getD "720p"
  let container := q.container.getD "mp4"
  let bitrate := q.bitrate.getD "192"
  if !truthy q.url || !isValidYouTubeUrl env.parseURL (q.url.getD "") then
    err400 "Invalid YouTube URL"
  else if !(mode == "video" || mode == "audio") then
    err400 "Invalid mode. Use video or audio"
  else
    let url := q.url.getD ""
    match getVideoInfo env.infoExit env.infoJson with
    | Except.error e => err500 [Ev.spawnInfo (infoArgs url)] e false false
    | Except.ok info =>
      let duration := info.duration.getD 0
      if duration > MAX_DURATION then
        err500 [Ev.spawnInfo (infoArgs url)]
          ("Video too long (max " ++ toString (MAX_DURATION / 60) ++ " minutes)")
          false false
      else
        let title := sanitizeFilename (jsOr info.title "video")
        let ext := chosenExt mode container
        let format := formatSelector mode quality
        let filename := baseFilename title bitrate quality mode ext
        let tmp := tempFile ext
        let evs1 := [Ev.spawnInfo (infoArgs url),
                     Ev.spawnDownload (downloadArgs url format ext tmp mode bitrate container)]
        match downloadVideo env.dlExit env.dlFileCreated with
        | Except.error e => err500 evs1 e env.dlFileCreated false
        | Except.ok _ =>
          if truthy q.startT || truthy q.endT then
            let trf := trimmedFile ext
            let evs2 := evs1 ++ [Ev.spawnTrim (trimArgs tmp trf q.startT q.endT)]
            match trimVideo env.trimExit env.trimFileCreated with
            | Except.error e => err500 evs2 e true env.trimFileCreated
            | Except.ok _ =>
              let filename2 := jsReplaceFirst filename ("." ++ ext) ("_trimmed." ++ ext)
              streamOutcome evs2
                (if mode == "audio" && ext == "mp3" then "audio/mpeg" else "video/" ++ ext)
                filename2 env.streamOk false true true
          else
            streamOutcome evs1
              (if mode == "audio" && ext == "mp3" then "audio/mpeg" else "video/" ++ ext)
              filename env.streamOk true false false

/-- Result payload of GET /info. -/
inductive InfoResult where
  | ok (info : VideoInfo)
  | err (msg : String)
deriving DecidableEq, Repr

/-- Observation of one GET /info request. -/
structure InfoOutcome where
  events : List Ev
  status : Nat
  result : InfoResult
deriving DecidableEq, Repr

/-- The GET /info handler (server.js lines 57-71). -/
def infoHandler (parseURL : String → Option String) (url? : Option String)
    (infoExit : Int) (infoJson : Option VideoInfo) : InfoOutcome :=
  if !truthy url? || !isValidYouTubeUrl parseURL (url?.getD "") then
    { events := [], status := 400, result := InfoResult.err "Invalid YouTube URL" }
  else
    match getVideoInfo infoExit infoJson with
    | Except.ok info =>
      { events := [Ev.spawnInfo (infoArgs (url?.getD ""))], status := 200,
        result := InfoResult.ok info }
    | Except.error e =>
      { events := [Ev.spawnInfo (infoArgs (url?.getD ""))], status := 500,
        result := InfoResult.err e }

/-- Split a character list at every occurrence of a separator. -/
def splitOnChar (sep : Char) : List Char → List (List Char)
  | [] => [[]]
  | c :: rest =>
    if c == sep then [] :: splitOnChar sep rest
    else
      match splitOnChar sep rest with
      | [] => [[c]]
      | x :: xs => (c :: x) :: xs

/-- All-digit run parsed as a number, `none` otherwise. -/
def parseNatDigits (l : List Char) : Option Nat :=
  if !l.isEmpty && l.all Char.isDigit then some (digitsToNat l) else none

/-- Modelled from the spec: the external media-processing tool itself is
not part of src/ (the repository only builds its argv); per the spec it
accepts seek and trim timestamps in HH:MM:SS form.  This reads such a
timestamp as a number of seconds. -/
def hmsToSeconds (s : String) : Option Nat :=
  match splitOnChar ':' s.data with
  | [h, m, sec] =>
    match parseNatDigits h, parseNatDigits m, parseNatDigits sec with
    | some a, some b, some c => some (a * 3600 + b * 60 + c)
    | _, _, _ => none
  | _ => none

/-- The value following the first occurrence of a flag in an argv list. -/
def argValueAfter (args : List String) (flag : String) : Option String :=
  match args with
  | [] => none
  | a :: rest => if a == flag then rest.head? else argValueAfter rest flag

/-- Modelled from the spec: a stream-copy trim invocation with seek flag
`-ss S` and end flag `-to E` delivers output whose duration is at most
E - S seconds.  This computes that upper bound from an argv list. -/
def trimWindowBound (args : List String) : Option Nat :=
  match argValueAfter args "-ss", argValueAfter args "-to" with
  | some s, some e =>
    match hmsToSeconds s, hmsToSeconds e with
    | some a, some b => some (b - a)
    | _, _ => none
  | _, _ => none

/-- Metadata fixture: a well-formed short video used by witnesses. -/
def infoFixture : VideoInfo :=
  { id := some "dQw4", title := some "My Video", duration := some 212,
    thumbnail := some "http://t", uploader := some "up", upload_date := some "20240101" }

/-- Environment fixture in which every external step succeeds. -/
def envOkFixture : Env :=
  { parseURL := fun _ => some "www.youtube.com", infoExit := 0,
    infoJson := some infoFixture, dlExit := 0, dlFileCreated := true,
    trimExit := 0, trimFileCreated := true, streamOk := true }

/-- Environment fixture where the download tool exits 1 after leaving a
partial output file. -/
def envDlFailFixture : Env :=
  { parseURL := fun _ => some "www.youtube.com", infoExit := 0,
    infoJson := some infoFixture, dlExit := 1, dlFileCreated := true,
    trimExit := 0, trimFileCreated := true, streamOk := true }

/-- Plain video request fixture. -/
def qVideoFixture : Query := { url := some "https://www.youtube.com/watch?v=dQw4" }

/-- Audio request fixture asking for MP3. -/
def qAudioMp3Fixture : Query :=
  { url := some "https://www.youtube.com/watch?v=dQw4", mode := some "audio",
    container := some "mp3", bitrate := some "192" }

/-- Request fixture with a one-minute trim window. -/
def qTrimFixture : Query :=
  { url := some "https://www.youtube.com/watch?v=dQw4",
    startT := some "00:01:00", endT := some "00:02:00" }

theorem data_mk (l : List Char) : (String.mk l).data = l := rfl

theorem tempFile_ne_trimmedFile (ext : String) : tempFile ext ≠ trimmedFile ext := by
  intro h
  have hl := congrArg String.length h
  have h1 : ("/tmp/ytdl_TS_RAND." : String).length = 18 := by decide
  have h2 : ("/tmp/ytdl_trim_TS_RAND." : String).length = 23 := by decide
  rw [tempFile, trimmedFile, String.length_append, String.length_append, h1, h2] at hl
  omega

theorem tempFile_beq_flag (ext : String) : (tempFile ext == "-to") = false := by
  rw [beq_eq_false_iff_ne]
  intro h
  have hl := congrArg String.length h
  have h1 : ("/tmp/ytdl_TS_RAND." : String).length = 18 := by decide
  have h2 : ("-to" : String).length = 3 := by decide
  rw [tempFile, String.length_append, h1, h2] at hl
  omega

theorem listReplaceFirst_of_occurrence (pat repl : List Char) :
    ∀ l : List Char, (∃ x y, l = x ++ pat ++ y) →
      ∃ u v, listReplaceFirst l pat repl = u ++ repl ++ v := by
  intro l
  induction l with
  | nil =>
    rintro ⟨x, y, hxy⟩
    have h0 : (x ++ pat) ++ y = [] := hxy.symm
    have h1 := List.append_eq_nil.mp h0
    have h2 := List.append_eq_nil.mp h1.1
    obtain rfl : pat = [] := h2.2
    exact ⟨[], [], rfl⟩
  | cons c rest ih =>
    rintro ⟨x, y, hxy⟩
    by_cases hp : pat.isPrefixOf (c :: rest) = true
    · refine ⟨[], (c :: rest).drop pat.length, ?_⟩
      simp [listReplaceFirst, hp]
    · match x, hxy with
      | [], hxy =>
        exact absurd (List.isPrefixOf_iff_prefix.mpr ⟨y, hxy.symm⟩) hp
      | x0 :: xs, hxy =>
        have hxy' : c :: rest = x0 :: (xs ++ pat ++ y) := by simpa using hxy
        have hrest : rest = xs ++ pat ++ y := (List.cons_eq_cons.mp hxy').2
        obtain ⟨u, v, hr⟩ := ih ⟨xs, y, hrest⟩
        refine ⟨c :: u, v, ?_⟩
        simp [listReplaceFirst, hp, hr]

theorem baseFilename_data (title bitrate quality mode ext : String) :
    ∃ pre, (baseFilename title bitrate quality mode ext).data
      = (title.data ++ pre) ++ ('.' :: ext.data) := by
  unfold baseFilename
  by_cases hm : (mode == "audio") = true
  · refine ⟨'_' :: bitrate.data ++ ['k', 'b', 'p', 's'], ?_⟩
    rw [if_pos hm]
    have hk : ("kbps." : String).data = ['k', 'b', 'p', 's', '.'] := rfl
    have hu : ("_" : String).data = ['_'] := rfl
    simp [String.data_append, hk, hu, List.append_assoc]
  · refine ⟨'_' :: quality.data, ?_⟩
    rw [if_neg hm]
    have hd : ("." : String).data = ['.'] := rfl
    have hu : ("_" : String).data = ['_'] := rfl
    simp [String.data_append, hd, hu, List.append_assoc]

theorem trimmed_marker_infix (title bitrate quality mode ext : String) :
    "_trimmed".data <:+:
      ("attachment; filename=\"" ++
        jsReplaceFirst (baseFilename title bitrate quality mode ext)
          ("." ++ ext) ("_trimmed." ++ ext) ++ "\"").data := by
  obtain ⟨pre, hpre⟩ := baseFilename_data title bitrate quality mode ext
  have hpat : ("." ++ ext).data = '.' :: ext.data := by
    have hd : ("." : String).data = ['.'] := rfl
    simp [String.data_append, hd]
  have hocc : ∃ x y, (baseFilename title bitrate quality mode ext).data
      = x ++ ("." ++ ext).data ++ y := by
    refine ⟨title.data ++ pre, [], ?_⟩
    simp [hpre, hpat]
  obtain ⟨u, v, hr⟩ :=
    listReplaceFirst_of_occurrence ("." ++ ext).data ("_trimmed." ++ ext).data _ hocc
  have hsplit : ("_trimmed." ++ ext).data = "_trimmed".data ++ ('.' :: ext.data) := by
    have hdot : ("_trimmed." : String).data = "_trimmed".data ++ ['.'] := rfl
    simp [String.data_append, hdot, List.append_assoc]
  refine ⟨"attachment; filename=\"".data ++ u,
          ('.' :: ext.data) ++ v ++ ("\"" : String).data, ?_⟩
  simp only [String.data_append]
  rw [jsReplaceFirst, data_mk, hr, hsplit]
  simp [List.append_assoc]

theorem collapseSpaces_subset (l : List Char) :
    ∀ (b : Bool), ∀ c ∈ collapseSpaces l b, c ∈ l := by
  induction l with
  | nil => intro b c hc; simp [collapseSpaces] at hc
  | cons a rest ih =>
    intro b c hc
    simp only [collapseSpaces] at hc
    by_cases ha : (a == ' ') = true
    · rw [if_pos ha] at hc
      have ha' : a = ' ' := by simpa using ha
      cases b with
      | true =>
        rw [if_pos rfl] at hc
        exact List.mem_cons_of_mem _ (ih true c hc)
      | false =>
        rw [if_neg (by simp)] at hc
        rcases List.mem_cons.mp hc with h | h
        · simp [h, ha']
        · exact List.mem_cons_of_mem _ (ih true c h)
    · rw [if_neg ha] at hc
      rcases List.mem_cons.mp hc with h | h
      · simp [h]
      · exact List.mem_cons_of_mem _ (ih false c h)

theorem trimSpaces_subset (l : List Char) : ∀ c ∈ trimSpaces l, c ∈ l := by
  intro c hc
  simp only [trimSpaces, List.mem_reverse] at hc
  have h1 := (List.dropWhile_sublist (l := (l.dropWhile fun c => c == ' ').reverse)
    (p := fun c => c == ' ')).subset hc
  rw [List.mem_reverse] at h1
  exact (List.dropWhile_sublist (l := l) (p := fun c => c == ' ')).subset h1

theorem sanitize_chars_allowed (name : String) :
    ∀ c ∈ (sanitizeFilename name).data, allowedChar c = true := by
  intro c hc
  simp only [sanitizeFilename, data_mk] at hc
  have h1 := List.take_subset _ _ hc
  have h2 := trimSpaces_subset _ c h1
  have h3 := collapseSpaces_subset _ false c h2
  simp only [replaceDisallowed, List.mem_map] at h3
  obtain ⟨a, _, hfa⟩ := h3
  by_cases h : allowedChar a = true
  · rw [if_pos h] at hfa
    rw [← hfa]
    exact h
  · rw [if_neg h] at hfa
    rw [← hfa]
    decide

theorem head?_dropWhile_false (p : Char → Bool) :
    ∀ (l : List Char) (c : Char), (l.dropWhile p).head? = some c → p c = false := by
  intro l
  induction l with
  | nil => intro c h; simp at h
  | cons a rest ih =>
    intro c h
    by_cases ha : p a = true
    · rw [List.dropWhile_cons, if_pos ha] at h
      exact ih c h
    · rw [List.dropWhile_cons, if_neg ha] at h
      simp at h
      rw [← h]
      exact Bool.not_eq_true _ |>.mp ha

theorem head?_of_prefix {r m : List Char} {c : Char} (hp : r <+: m)
    (hr : r.head? = some c) : m.head? = some c := by
  obtain ⟨t, rfl⟩ := hp
  cases r with
  | nil => simp at hr
  | cons a r' => simpa using hr

theorem head?_take_pos (l : List Char) (n : Nat) (hn : n ≠ 0) :
    (l.take n).head? = l.head? := by
  cases n with
  | zero => exact absurd rfl hn
  | succ m => cases l <;> simp

theorem sanitize_head_not_space (name : String) :
    (sanitizeFilename name).data.head? ≠ some ' ' := by
  intro h
  simp only [sanitizeFilename, data_mk] at h
  rw [head?_take_pos _ 100 (by decide)] at h
  set m1 := (collapseSpaces (replaceDisallowed name.data) false).dropWhile
    (fun c => c == ' ') with hm1
  have hrev : (trimSpaces (collapseSpaces (replaceDisallowed name.data) false)).reverse
      = m1.reverse.dropWhile (fun c => c == ' ') := by
    simp [trimSpaces, hm1]
  have hsuf : (trimSpaces (collapseSpaces (replaceDisallowed name.data) false)).reverse
      <:+ m1.reverse := by
    rw [hrev]; exact List.dropWhile_suffix _
  have hpre : trimSpaces (collapseSpaces (replaceDisallowed name.data) false) <+: m1 :=
    List.reverse_suffix.mp hsuf
  have hm : m1.head? = some ' ' := head?_of_prefix hpre h
  have := head?_dropWhile_false (fun c => c == ' ') _ ' ' hm
  simp at this

theorem sanitize_length_le (name : String) : (sanitizeFilename name).length ≤ 100 := by
  have : (sanitizeFilename name).data.length ≤ 100 := by
    simp only [sanitizeFilename, data_mk]
    exact List.length_take_le _ _
  exact this

/-- Claim C4: the download step resolves successfully exactly when the
download tool exits with code 0 and the output file exists on disk (double
confirmation); a non-zero exit code, or a missing output file after a zero
exit, each make the step fail with an error. -/
theorem c4_download_double_confirmation (code : Int) (fileEx : Bool) :
    (downloadVideo code fileEx = Except.ok () ↔ (code = 0 ∧ fileEx = true))
  ∧ (code ≠ 0 → downloadVideo code fileEx = Except.error "Download failed")
  ∧ (code = 0 → fileEx = false →
      downloadVideo code fileEx = Except.error "Downloaded file not found") := by
  by_cases hc : code = 0 <;> cases fileEx <;> simp [downloadVideo, hc]

/-- Witness for C4 at concrete inputs: exit 0 with the file present
resolves; exit 1 and a missing file each fail. -/
theorem c4_download_double_confirmation_witness :
    downloadVideo 0 true = Except.ok ()
  ∧ downloadVideo 1 true = Except.error "Download failed"
  ∧ downloadVideo 0 false = Except.error "Downloaded file not found" :=
  ⟨(c4_download_double_confirmation 0 true).1.mpr ⟨rfl, rfl⟩,
   (c4_download_double_confirmation 1 true).2.1 (by decide),
   (c4_download_double_confirmation 0 false).2.2 rfl rfl⟩

/-- Claim C5: the metadata fetch resolves with the six-field record exactly
when the info tool exits 0 and its stdout parses; a non-zero exit or an
unparseable output is a fetch failure, which GET /info reports as a 500
response, the 400 status being reserved for URL validation. -/
theorem c5_info_fetch_contract (e : Int) (j : Option VideoInfo)
    (pURL : String → Option String) (url? : Option String) :
    (∀ info, getVideoInfo e j = Except.ok info ↔ (e = 0 ∧ j = some info))
  ∧ (truthy url? = true → isValidYouTubeUrl pURL (url?.getD "") = true →
      (∀ info, getVideoInfo e j = Except.ok info →
        (infoHandler pURL url? e j).status = 200
        ∧ (infoHandler pURL url? e j).result = InfoResult.ok info)
      ∧ (∀ m, getVideoInfo e j = Except.error m →
        (infoHandler pURL url? e j).status = 500
        ∧ (infoHandler pURL url? e j).result = InfoResult.err m))
  ∧ ((truthy url? = false ∨ isValidYouTubeUrl pURL (url?.getD "") = false) →
      (infoHandler pURL url? e j).status = 400) := by
  refine ⟨?_, ?_, ?_⟩
  · intro info
    by_cases he : e = 0 <;> cases j <;> simp [getVideoInfo, he]
  · intro h1 h2
    constructor
    · intro info hok
      simp [infoHandler, h1, h2, hok]
    · intro m herr
      simp [infoHandler, h1, h2, herr]
  · rintro (h | h) <;> simp [infoHandler, h]

/-- Witness for C5: with a valid URL, a zero exit and parsed output give a
200 with the record, while a non-zero exit gives a 500. -/
theorem c5_info_fetch_contract_witness :
    (getVideoInfo 0 (some infoFixture) = Except.ok infoFixture ↔
      ((0:Int) = 0 ∧ some infoFixture = some infoFixture))
  ∧ ((infoHandler (fun _ => some "www.youtube.com")
        (some "https://www.youtube.com/watch?v=dQw4") 0 (some infoFixture)).status = 200
      ∧ (infoHandler (fun _ => some "www.youtube.com")
          (some "https://www.youtube.com/watch?v=dQw4") 0 (some infoFixture)).result
        = InfoResult.ok infoFixture)
  ∧ ((infoHandler (fun _ => some "www.youtube.com")
        (some "https://www.youtube.com/watch?v=dQw4") 1 none).status = 500) :=
  ⟨(c5_info_fetch_contract 0 (some infoFixture) (fun _ => some "www.youtube.com")
      (some "https://www.youtube.com/watch?v=dQw4")).1 infoFixture,
   ((c5_info_fetch_contract 0 (some infoFixture) (fun _ => some "www.youtube.com")
      (some "https://www.youtube.com/watch?v=dQw4")).2.1 (by decide) (by decide)).1
     infoFixture rfl,
   (((c5_info_fetch_contract 1 none (fun _ => some "www.youtube.com")
      (some "https://www.youtube.com/watch?v=dQw4")).2.1 (by decide) (by decide)).2
     "Failed to fetch video info" rfl).1⟩

/-- Claim C3: a /download or /info request whose url parameter is missing,
fails to parse, or whose parsed host does not match the media-hosting
pattern gets a 400 response with no spawn event; so does a /download
request whose mode is neither video nor audio. -/
theorem c3_validation_rejects_before_spawn (env : Env) (q : Query)
    (pURL : String → Option String) (url? : Option String)
    (ie : Int) (ij : Option VideoInfo) :
    ((truthy q.url = false ∨ isValidYouTubeUrl env.parseURL (q.url.getD "") = false) →
      (downloadHandler env q).response.status = 400 ∧ (downloadHandler env q).events = [])
  ∧ ((truthy url? = false ∨ isValidYouTubeUrl pURL (url?.getD "") = false) →
      (infoHandler pURL url? ie ij).status = 400 ∧ (infoHandler pURL url? ie ij).events = [])
  ∧ (truthy q.url = true → isValidYouTubeUrl env.parseURL (q.url.getD "") = true →
      q.mode.getD "video" ≠ "video" → q.mode.getD "video" ≠ "audio" →
      (downloadHandler env q).response.status = 400 ∧ (downloadHandler env q).events = []) := by
  refine ⟨?_, ?_, ?_⟩
  · rintro (h | h) <;> simp [downloadHandler, err400, h]
  · rintro (h | h) <;> simp [infoHandler, h]
  · intro h1 h2 h3 h4
    simp [downloadHandler, err400, h1, h2, h3, h4]

/-- Witness for C3: a wrong-host URL is rejected by both endpoints, and a
bad mode is rejected by /download, each with an empty event list. -/
theorem c3_validation_rejects_before_spawn_witness :
    ((downloadHandler { envOkFixture with parseURL := fun _ => some "vimeo.com" }
        { url := some "https://vimeo.com/123" }).response.status = 400
      ∧ (downloadHandler { envOkFixture with parseURL := fun _ => some "vimeo.com" }
          { url := some "https://vimeo.com/123" }).events = [])
  ∧ ((infoHandler (fun _ => some "vimeo.com") (some "https://vimeo.com/123") 0
        (some infoFixture)).status = 400
      ∧ (infoHandler (fun _ => some "vimeo.com") (some "https://vimeo.com/123") 0
          (some infoFixture)).events = [])
  ∧ ((downloadHandler envOkFixture
        { url := some "https://www.youtube.com/watch?v=dQw4", mode := some "playlist" }).response.status = 400
      ∧ (downloadHandler envOkFixture
          { url := some "https://www.youtube.com/watch?v=dQw4", mode := some "playlist" }).events = []) := by
  refine ⟨?_, ?_, ?_⟩
  · exact (c3_validation_rejects_before_spawn
      { envOkFixture with parseURL := fun _ => some "vimeo.com" }
      { url := some "https://vimeo.com/123" } (fun _ => none) none 0 none).1
      (Or.inr (by decide))
  · exact (c3_validation_rejects_before_spawn envOkFixture { url := none }
      (fun _ => some "vimeo.com") (some "https://vimeo.com/123") 0 (some infoFixture)).2.1
      (Or.inr (by decide))
  · exact (c3_validation_rejects_before_spawn envOkFixture
      { url := some "https://www.youtube.com/watch?v=dQw4", mode := some "playlist" }
      (fun _ => none) none 0 none).2.2 (by decide) (by decide) (by decide) (by decide)

/-- Claim C2: when the fetched metadata's duration exceeds 3600 seconds
the /download handler fails with a 500 response and neither the download
tool nor the trim tool is ever spawned. -/
theorem c2_duration_ceiling (env : Env) (q : Query) (info : VideoInfo) (d : Nat)
    (hu : truthy q.url = true)
    (hv : isValidYouTubeUrl env.parseURL (q.url.getD "") = true)
    (hm : q.mode.getD "video" = "video" ∨ q.mode.getD "video" = "audio")
    (he : env.infoExit = 0)
    (hj : env.infoJson = some info)
    (hd : info.duration = some d)
    (hgt : MAX_DURATION < d) :
    (downloadHandler env q).response.status = 500
  ∧ (∀ a, Ev.spawnDownload a ∉ (downloadHandler env q).events)
  ∧ (∀ a, Ev.spawnTrim a ∉ (downloadHandler env q).events) := by
  rcases hm with hm | hm <;>
    simp [downloadHandler, getVideoInfo, err500, he, hj, hd, hu, hv, hm, hgt]

/-- Witness for C2: a 7200-second video is refused with a 500 and no
download or trim spawn occurs. -/
theorem c2_duration_ceiling_witness :
    (downloadHandler
      { envOkFixture with infoJson := some { infoFixture with duration := some 7200 } }
      qVideoFixture).response.status = 500
  ∧ (∀ a, Ev.spawnDownload a ∉ (downloadHandler
      { envOkFixture with infoJson := some { infoFixture with duration := some 7200 } }
      qVideoFixture).events)
  ∧ (∀ a, Ev.spawnTrim a ∉ (downloadHandler
      { envOkFixture with infoJson := some { infoFixture with duration := some 7200 } }
      qVideoFixture).events) :=
  c2_duration_ceiling _ _ { infoFixture with duration := some 7200 } 7200
    (by decide) (by decide) (Or.inl rfl) rfl rfl rfl (by decide)

/-- Claim C1 (amended): temp files are deleted by end-of-request on the
successful-streaming and stream-error exit paths, and the pre-trim temp
file is deleted after a successful trim; but when the download or trim
process fails after the temp file was created, the 500 error path does not
delete it, so the file persists.  The first half covers every streaming
path (the status-200 outcome holds for either value of `streamOk`, i.e.
for both the end and the error stream event); the second half exhibits the
download-failure leak. -/
theorem c1_cleanup_amended :
    (∀ (env : Env) (q : Query) (info : VideoInfo),
      truthy q.url = true →
      isValidYouTubeUrl env.parseURL (q.url.getD "") = true →
      (q.mode.getD "video" = "video" ∨ q.mode.getD "video" = "audio") →
      env.infoExit = 0 → env.infoJson = some info →
      ¬ MAX_DURATION < info.duration.getD 0 →
      env.dlExit = 0 → env.dlFileCreated = true →
      ((truthy q.startT || truthy q.endT) = true →
        env.trimExit = 0 ∧ env.trimFileCreated = true) →
      (downloadHandler env q).response.status = 200
      ∧ (downloadHandler env q).downloadedOnDisk = false
      ∧ (downloadHandler env q).trimmedOnDisk = false)
  ∧ (∀ (env : Env) (q : Query) (info : VideoInfo),
      truthy q.url = true →
      isValidYouTubeUrl env.parseURL (q.url.getD "") = true →
      (q.mode.getD "video" = "video" ∨ q.mode.getD "video" = "audio") →
      env.infoExit = 0 → env.infoJson = some info →
      ¬ MAX_DURATION < info.duration.getD 0 →
      env.dlExit ≠ 0 → env.dlFileCreated = true →
      (downloadHandler env q).response.status = 500
      ∧ (downloadHandler env q).downloadedOnDisk = true) := by
  constructor
  · intro env q info hu hv hm he hj hdur hdl hdf htr
    by_cases ht : (truthy q.startT || truthy q.endT) = true
    · obtain ⟨ht0, htf⟩ := htr ht
      rcases hm with hm | hm <;>
        simp [downloadHandler, getVideoInfo, downloadVideo, trimVideo, streamOutcome,
              hu, hv, hm, he, hj, hdur, hdl, hdf, ht, ht0, htf]
    · rw [Bool.not_eq_true] at ht
      rcases hm with hm | hm <;>
        simp [downloadHandler, getVideoInfo, downloadVideo, streamOutcome,
              hu, hv, hm, he, hj, hdur, hdl, hdf, ht]
  · intro env q info hu hv hm he hj hdur hdl hdf
    rcases hm with hm | hm <;>
      simp [downloadHandler, getVideoInfo, downloadVideo, err500,
            hu, hv, hm, he, hj, hdur, hdl, hdf]

/-- Counterexample for C1 as frozen: with a valid video request whose
download tool exits 1 after creating the temp file, the handler answers
500 from the catch block and the downloaded temp file is still on disk at
end of request, so not every exit path removes the temp files. -/
theorem c1_cleanup_counterexample :
    (downloadHandler envDlFailFixture qVideoFixture).response.status = 500
  ∧ (downloadHandler envDlFailFixture qVideoFixture).downloadedOnDisk = true := by
  constructor <;> decide

/-- Witness for C1 (amended), on concrete requests: a fully successful
trim request streams with both temp files gone, and the download-failure
request leaks the temp file. -/
theorem c1_cleanup_amended_witness :
    ((downloadHandler envOkFixture qTrimFixture).response.status = 200
      ∧ (downloadHandler envOkFixture qTrimFixture).downloadedOnDisk = false
      ∧ (downloadHandler envOkFixture qTrimFixture).trimmedOnDisk = false)
  ∧ ((downloadHandler envDlFailFixture qVideoFixture).response.status = 500
      ∧ (downloadHandler envDlFailFixture qVideoFixture).downloadedOnDisk = true) :=
  ⟨c1_cleanup_amended.1 envOkFixture qTrimFixture infoFixture
      (by decide) (by decide) (Or.inl rfl) rfl rfl (by decide) rfl rfl
      (fun _ => ⟨rfl, rfl⟩),
   c1_cleanup_amended.2 envDlFailFixture qVideoFixture infoFixture
      (by decide) (by decide) (Or.inl rfl) rfl rfl (by decide) (by decide) rfl⟩

/-- Claim C6: on every successful /download with mode audio and container
mp3, the Content-Type header is audio/mpeg and the chosen file extension
is mp3. -/
theorem c6_audio_mp3_content_type (env : Env) (q : Query) (info : VideoInfo)
    (hmo : q.mode = some "audio") (hco : q.container = some "mp3")
    (hu : truthy q.url = true)
    (hv : isValidYouTubeUrl env.parseURL (q.url.getD "") = true)
    (he : env.infoExit = 0) (hj : env.infoJson = some info)
    (hdur : ¬ MAX_DURATION < info.duration.getD 0)
    (hdl : env.dlExit = 0) (hdf : env.dlFileCreated = true)
    (htr : (truthy q.startT || truthy q.endT) = true →
      env.trimExit = 0 ∧ env.trimFileCreated = true) :
    (downloadHandler env q).response.status = 200
  ∧ (downloadHandler env q).response.contentType = some "audio/mpeg"
  ∧ chosenExt (q.mode.getD "video") (q.container.getD "mp4") = "mp3" := by
  by_cases ht : (truthy q.startT || truthy q.endT) = true
  · obtain ⟨ht0, htf⟩ := htr ht
    simp [downloadHandler, getVideoInfo, downloadVideo, trimVideo, streamOutcome, chosenExt,
          hmo, hco, hu, hv, he, hj, hdur, hdl, hdf, ht, ht0, htf]
  · rw [Bool.not_eq_true] at ht
    simp [downloadHandler, getVideoInfo, downloadVideo, streamOutcome, chosenExt,
          hmo, hco, hu, hv, he, hj, hdur, hdl, hdf, ht]

/-- Witness for C6: the concrete audio/mp3 request streams with
Content-Type audio/mpeg and extension mp3. -/
theorem c6_audio_mp3_content_type_witness :
    (downloadHandler envOkFixture qAudioMp3Fixture).response.status = 200
  ∧ (downloadHandler envOkFixture qAudioMp3Fixture).response.contentType = some "audio/mpeg"
  ∧ chosenExt (qAudioMp3Fixture.mode.getD "video") (qAudioMp3Fixture.container.getD "mp4")
      = "mp3" :=
  c6_audio_mp3_content_type envOkFixture qAudioMp3Fixture infoFixture
    rfl rfl (by decide) (by decide) rfl rfl (by decide) rfl rfl (by decide)

/-- Claim C10: when the fetched metadata's duration is absent, null or 0,
the handler computes duration 0, the 3600-second ceiling check passes, and
the download tool is spawned even though the real duration is unknown. -/
theorem c10_missing_duration_proceeds (env : Env) (q : Query) (info : VideoInfo)
    (hu : truthy q.url = true)
    (hv : isValidYouTubeUrl env.parseURL (q.url.getD "") = true)
    (hm : q.mode.getD "video" = "video" ∨ q.mode.getD "video" = "audio")
    (he : env.infoExit = 0) (hj : env.infoJson = some info)
    (hd : info.duration = none ∨ info.duration = some 0) :
    info.duration.getD 0 = 0
  ∧ (∃ a, Ev.spawnDownload a ∈ (downloadHandler env q).events) := by
  have h0 : info.duration.getD 0 = 0 := by rcases hd with h | h <;> simp [h]
  refine ⟨h0, ?_⟩
  rcases hm with hm | hm <;>
  · cases hdl : downloadVideo env.dlExit env.dlFileCreated with
    | error e =>
      simp [downloadHandler, getVideoInfo, err500, he, hj, hu, hv, hm, h0, hdl, MAX_DURATION]
    | ok u =>
      by_cases ht : (truthy q.startT || truthy q.endT) = true
      · cases htr : trimVideo env.trimExit env.trimFileCreated with
        | error e2 =>
          simp [downloadHandler, getVideoInfo, err500, he, hj, hu, hv, hm, h0, hdl, ht, htr,
                MAX_DURATION]
        | ok u2 =>
          simp [downloadHandler, getVideoInfo, streamOutcome, he, hj, hu, hv, hm, h0, hdl,
                ht, htr, MAX_DURATION]
      · rw [Bool.not_eq_true] at ht
        simp [downloadHandler, getVideoInfo, streamOutcome, he, hj, hu, hv, hm, h0, hdl, ht,
              MAX_DURATION]

/-- Witness for C10: with a metadata record whose duration field is
absent, the download is spawned. -/
theorem c10_missing_duration_proceeds_witness :
    ({ infoFixture with duration := none } : VideoInfo).duration.getD 0 = 0
  ∧ (∃ a, Ev.spawnDownload a ∈ (downloadHandler
      { envOkFixture with infoJson := some { infoFixture with duration := none } }
      qVideoFixture).events) :=
  c10_missing_duration_proceeds _ _ { infoFixture with duration := none }
    (by decide) (by decide) (Or.inl rfl) rfl rfl (Or.inl rfl)

/-- Claim C8: the hostname pattern is an unanchored substring match, so a
host such as fake-youtube.com.evil.example — which is neither youtube.com
nor youtu.be nor a subdomain of either (it does not end in .youtube.com or
.youtu.be) — passes `isValidYouTubeUrl`, and a /download request for it
proceeds to spawn an external process. -/
theorem c8_unanchored_host_pattern :
    isValidYouTubeUrl (fun _ => some "fake-youtube.com.evil.example")
        "https://fake-youtube.com.evil.example/watch?v=x" = true
  ∧ ("fake-youtube.com.evil.example" : String) ≠ "youtube.com"
  ∧ ("fake-youtube.com.evil.example" : String) ≠ "youtu.be"
  ∧ (".youtube.com".data.isSuffixOf "fake-youtube.com.evil.example".data) = false
  ∧ (".youtu.be".data.isSuffixOf "fake-youtube.com.evil.example".data) = false
  ∧ (downloadHandler
      { parseURL := fun _ => some "fake-youtube.com.evil.example", infoExit := 1,
        infoJson := none, dlExit := 1, dlFileCreated := false, trimExit := 1,
        trimFileCreated := false, streamOk := true }
      { url := some "https://fake-youtube.com.evil.example/watch?v=x" }).events ≠ [] := by
  refine ⟨?_, ?_, ?_, ?_, ?_, ?_⟩ <;> decide

/-- Counterexample for C9 as frozen: `sanitizeFilename` trims before it
truncates, so on the 101-character input consisting of 99 letters, a space
and one more letter, the result is 100 characters long and ends in a
space, i.e. it has trailing whitespace. -/
theorem c9_counterexample_trailing_space :
    (sanitizeFilename (String.mk (List.replicate 99 'a' ++ [' ', 'b']))).data.getLast?
      = some ' '
  ∧ (sanitizeFilename (String.mk (List.replicate 99 'a' ++ [' ', 'b']))).data.length
      = 100 := by
  constructor <;> decide

/-- Claim C9 (amended): for every input string `sanitizeFilename` returns
a string of length at most 100 whose characters are only ASCII letters,
digits, hyphen, underscore and space, with no leading whitespace — but the
final slice to 100 characters can cut right after a space, leaving a
single trailing space (see the counterexample); the sanitized title is
what the Content-Disposition filename is built from, exhibited here on the
untrimmed success path. -/
theorem c9_sanitize_amended (name : String) (env : Env) (q : Query) (info : VideoInfo)
    (hu : truthy q.url = true)
    (hv : isValidYouTubeUrl env.parseURL (q.url.getD "") = true)
    (hm : q.mode.getD "video" = "video" ∨ q.mode.getD "video" = "audio")
    (he : env.infoExit = 0) (hj : env.infoJson = some info)
    (hdur : ¬ MAX_DURATION < info.duration.getD 0)
    (hdl : env.dlExit = 0) (hdf : env.dlFileCreated = true)
    (hs : truthy q.startT = false) (hen : truthy q.endT = false) :
    (sanitizeFilename name).length ≤ 100
  ∧ (∀ c ∈ (sanitizeFilename name).data, allowedChar c = true)
  ∧ (sanitizeFilename name).data.head? ≠ some ' '
  ∧ (∃ cd rest, (downloadHandler env q).response.contentDisposition = some cd
      ∧ cd.data = "attachment; filename=\"".data
          ++ (sanitizeFilename (jsOr info.title "video")).data ++ rest) := by
  have ht : (truthy q.startT || truthy q.endT) = false := by simp [hs, hen]
  refine ⟨sanitize_length_le name, sanitize_chars_allowed name,
          sanitize_head_not_space name, ?_⟩
  have hus : ("_" : String).data = ['_'] := rfl
  have hds : ("." : String).data = ['.'] := rfl
  have hks : ("kbps." : String).data = ['k', 'b', 'p', 's', '.'] := rfl
  rcases hm with hm | hm
  · refine ⟨"attachment; filename=\"" ++ (sanitizeFilename (jsOr info.title "video")
        ++ "_" ++ q.quality.getD "720p" ++ "." ++ q.container.getD "mp4") ++ "\"",
      ('_' :: ((q.quality.getD "720p").data ++ ('.' :: (q.container.getD "mp4").data)))
        ++ ("\"" : String).data, ?_, ?_⟩
    · simp [downloadHandler, getVideoInfo, downloadVideo, streamOutcome, baseFilename,
            chosenExt, he, hj, hu, hv, hm, hdur, hdl, hdf, ht]
    · simp [String.data_append, hus, hds, List.append_assoc]
  · refine ⟨"attachment; filename=\"" ++ (sanitizeFilename (jsOr info.title "video")
        ++ "_" ++ q.bitrate.getD "192" ++ "kbps." ++ chosenExt "audio" (q.container.getD "mp4"))
        ++ "\"",
      ('_' :: ((q.bitrate.getD "192").data
        ++ ('k' :: 'b' :: 'p' :: 's' :: '.' :: (chosenExt "audio" (q.container.getD "mp4")).data)))
        ++ ("\"" : String).data, ?_, ?_⟩
    · simp [downloadHandler, getVideoInfo, downloadVideo, streamOutcome, baseFilename,
            chosenExt, he, hj, hu, hv, hm, hdur, hdl, hdf, ht]
    · simp [String.data_append, hus, hks, List.append_assoc]

/-- Witness for C9 (amended) at a concrete title and request: the
sanitizer guarantees hold and the Content-Disposition of the fixture
request embeds the sanitized title. -/
theorem c9_sanitize_amended_witness :
    (sanitizeFilename "My * Video!").length ≤ 100
  ∧ (∀ c ∈ (sanitizeFilename "My * Video!").data, allowedChar c = true)
  ∧ (sanitizeFilename "My * Video!").data.head? ≠ some ' '
  ∧ (∃ cd rest,
      (downloadHandler envOkFixture qVideoFixture).response.contentDisposition = some cd
      ∧ cd.data = "attachment; filename=\"".data
          ++ (sanitizeFilename (jsOr infoFixture.title "video")).data ++ rest) :=
  c9_sanitize_amended "My * Video!" envOkFixture qVideoFixture infoFixture
    (by decide) (by decide) (Or.inl rfl) rfl rfl (by decide) rfl rfl rfl rfl

/-- Whatever combination of trim boundaries is supplied, the argv built
by trimVideo ends with the stream-copy flags -c copy followed by the
output path (lines 293-305): the tool never re-encodes. -/
theorem trimArgs_stream_copy (inp out : String) (s e : Option String) :
    ∃ u, trimArgs inp out s e = (u ++ ["-c", "copy"]) ++ [out] := by
  refine ⟨(if truthy s then ["-ss", s.getD ""] else []) ++ ["-i", inp]
    ++ (if truthy e then ["-to", e.getD ""] else []), ?_⟩
  simp [trimArgs, List.append_assoc]

/-- Claim C7: for every /download request supplying a trim start or end
boundary (either or both, with arbitrary values), on pipeline success the
trim tool is spawned with the argv trimVideo builds, which carries the
stream-copy flags -c copy (no re-encode) and a second temp file distinct
from the first; the first temp file is deleted (both temp files are off
disk at end of request) and the Content-Disposition filename carries the
_trimmed marker.  Per the spec-modelled stream-copy semantics, whenever
both boundaries are supplied as HH:MM:SS timestamps the invoked window
bounds the delivered duration by end minus start seconds (60 for the
spec's 00:01:00 to 00:02:00 example). -/
theorem c7_trim_pipeline (env : Env) (q : Query) (info : VideoInfo)
    (hu : truthy q.url = true)
    (hv : isValidYouTubeUrl env.parseURL (q.url.getD "") = true)
    (hm : q.mode.getD "video" = "video" ∨ q.mode.getD "video" = "audio")
    (he : env.infoExit = 0) (hj : env.infoJson = some info)
    (hdur : ¬ MAX_DURATION < info.duration.getD 0)
    (hdl : env.dlExit = 0) (hdf : env.dlFileCreated = true)
    (ht : (truthy q.startT || truthy q.endT) = true)
    (ht0 : env.trimExit = 0) (htf : env.trimFileCreated = true) :
    ∃ ext' targs,
      targs = trimArgs (tempFile ext') (trimmedFile ext') q.startT q.endT
    ∧ Ev.spawnTrim targs ∈ (downloadHandler env q).events
    ∧ (∃ u v, targs = (u ++ ["-c", "copy"]) ++ v)
    ∧ tempFile ext' ≠ trimmedFile ext'
    ∧ (∀ s e a b, q.startT = some s → q.endT = some e →
        hmsToSeconds s = some a → hmsToSeconds e = some b →
        trimWindowBound targs = some (b - a))
    ∧ (downloadHandler env q).response.status = 200
    ∧ (downloadHandler env q).downloadedOnDisk = false
    ∧ (downloadHandler env q).trimmedOnDisk = false
    ∧ (∃ cd, (downloadHandler env q).response.contentDisposition = some cd
        ∧ "_trimmed".data <:+: cd.data) := by
  rcases hm with hm | hm <;>
  · refine ⟨chosenExt (q.mode.getD "video") (q.container.getD "mp4"), _, rfl,
      ?_, ?_, ?_, ?_, ?_, ?_, ?_, ?_⟩
    · simp [downloadHandler, getVideoInfo, downloadVideo, trimVideo, streamOutcome,
            chosenExt, hm, he, hj, hu, hv, hdur, hdl, hdf, ht, ht0, htf]
    · obtain ⟨u, hu2⟩ := trimArgs_stream_copy
        (tempFile (chosenExt (q.mode.getD "video") (q.container.getD "mp4")))
        (trimmedFile (chosenExt (q.mode.getD "video") (q.container.getD "mp4")))
        q.startT q.endT
      exact ⟨u, [trimmedFile (chosenExt (q.mode.getD "video") (q.container.getD "mp4"))], hu2⟩
    · exact tempFile_ne_trimmedFile _
    · intro s e a b hqs hqe hpa hpb
      have hs0 : truthy (some s) = true := by
        have hne : s ≠ "" := by
          intro h0
          rw [h0] at hpa
          have hnone : hmsToSeconds "" = none := by decide
          rw [hnone] at hpa
          exact Option.noConfusion hpa
        simp [truthy, hne]
      have he0 : truthy (some e) = true := by
        have hne : e ≠ "" := by
          intro h0
          rw [h0] at hpb
          have hnone : hmsToSeconds "" = none := by decide
          rw [hnone] at hpb
          exact Option.noConfusion hpb
        simp [truthy, hne]
      have hsto : (s == "-to") = false := by
        have hne : s ≠ "-to" := by
          intro h0
          rw [h0] at hpa
          have hnone : hmsToSeconds "-to" = none := by decide
          rw [hnone] at hpa
          exact Option.noConfusion hpa
        simp [hne]
      simp [trimArgs, trimWindowBound, argValueAfter, hqs, hqe, hs0, he0, hsto,
            tempFile_beq_flag, hpa, hpb]
    · simp [downloadHandler, getVideoInfo, downloadVideo, trimVideo, streamOutcome,
            chosenExt, hm, he, hj, hu, hv, hdur, hdl, hdf, ht, ht0, htf]
    · simp [downloadHandler, getVideoInfo, downloadVideo, trimVideo, streamOutcome,
            chosenExt, hm, he, hj, hu, hv, hdur, hdl, hdf, ht, ht0, htf]
    · simp [downloadHandler, getVideoInfo, downloadVideo, trimVideo, streamOutcome,
            chosenExt, hm, he, hj, hu, hv, hdur, hdl, hdf, ht, ht0, htf]
    · refine ⟨"attachment; filename=\"" ++
        jsReplaceFirst
          (baseFilename (sanitizeFilename (jsOr info.title "video")) (q.bitrate.getD "192")
            (q.quality.getD "720p") (q.mode.getD "video")
            (chosenExt (q.mode.getD "video") (q.container.getD "mp4")))
          ("." ++ chosenExt (q.mode.getD "video") (q.container.getD "mp4"))
          ("_trimmed." ++ chosenExt (q.mode.getD "video") (q.container.getD "mp4"))
        ++ "\"", ?_, trimmed_marker_infix _ _ _ _ _⟩
      simp [downloadHandler, getVideoInfo, downloadVideo, trimVideo, streamOutcome,
            chosenExt, hm, he, hj, hu, hv, hdur, hdl, hdf, ht, ht0, htf]

/-- Witness for C7 on the fixture trim request (00:01:00 to 00:02:00): the
concrete successful run exhibits the trim spawn, the stream-copy flags,
the conditional window bound, the cleanup of both temp files and the
_trimmed marker. -/
theorem c7_trim_pipeline_witness :
    ∃ ext' targs,
      targs = trimArgs (tempFile ext') (trimmedFile ext') qTrimFixture.startT qTrimFixture.endT
    ∧ Ev.spawnTrim targs ∈ (downloadHandler envOkFixture qTrimFixture).events
    ∧ (∃ u v, targs = (u ++ ["-c", "copy"]) ++ v)
    ∧ tempFile ext' ≠ trimmedFile ext'
    ∧ (∀ s e a b, qTrimFixture.startT = some s → qTrimFixture.endT = some e →
        hmsToSeconds s = some a → hmsToSeconds e = some b →
        trimWindowBound targs = some (b - a))
    ∧ (downloadHandler envOkFixture qTrimFixture).response.status = 200
    ∧ (downloadHandler envOkFixture qTrimFixture).downloadedOnDisk = false
    ∧ (downloadHandler envOkFixture qTrimFixture).trimmedOnDisk = false
    ∧ (∃ cd, (downloadHandler envOkFixture qTrimFixture).response.contentDisposition = some cd
        ∧ "_trimmed".data <:+: cd.data) :=
  c7_trim_pipeline envOkFixture qTrimFixture infoFixture
    (by decide) (by decide) (Or.inl rfl) rfl rfl (by decide) rfl rfl (by decide) rfl rfl
